import Mathlib

/-!
Shallow embedding of the `portfolio-be-v2` backend lambdas.

The repository holds three small Fastify/AWS-Lambda applications:

* a `/languages` grant endpoint that signs a CloudFront URL for a `?file=`
  query parameter, with expiry `Date.now() + EXPIRES_IN_SECONDS * 10`
  (milliseconds) and no normalization of the file key;
* a `/countries` grant endpoint whose `generateSignedCloudFrontUrl` strips a
  single leading `/` from the key and uses expiry
  `Date.now() + EXPIRES_IN_SECONDS * 1000`;
* a `/geolocation` endpoint (`index.mjs`) that lazily loads a country table
  from S3 into the module-level `countryData` variable (set to `[]` on a
  failed load), queries the `ip-api.com` oracle for the caller address and
  answers with the matched record's fields or a `+1` default.

Machine time (`Date.now()`) is modelled as a natural number of milliseconds.
JSON response bodies are modelled as association lists of string key/value
pairs, mirroring the object literals in the source.  External effects (the
CloudFront signer, the S3 fetch and the geolocation oracle) are passed in as
explicit arguments, and each handler returns the outbound request it made (if
any) together with its reply, so that theorems can speak about the calls the
code performs.
-/

namespace PortfolioBE

/-- The configured TTL constant `EXPIRES_IN_SECONDS = 60` shared by both
grant applications. -/
def EXPIRES_IN_SECONDS : Nat := 60

/-- Expiry timestamp of the `/languages` variant:
`new Date(Date.now() + EXPIRES_IN_SECONDS * 10)` — the offset is in
milliseconds because `Date.now()` is. -/
def languagesExpiresAt (nowMs : Nat) : Nat := nowMs + EXPIRES_IN_SECONDS * 10

/-- Expiry timestamp of the `/countries` variant
(`generateSignedCloudFrontUrl`):
`new Date(Date.now() + EXPIRES_IN_SECONDS * 1000)`. -/
def countriesExpiresAt (nowMs : Nat) : Nat := nowMs + EXPIRES_IN_SECONDS * 1000

/-- One step of the key normalization `fileKey.startsWith("/") ?
fileKey.substring(1) : fileKey`, on the character list of the key. -/
def cleanList (l : List Char) : List Char :=
  match l with
  | c :: rest => if c = '/' then rest else l
  | [] => []

/-- The `cleanFileKey` computation of `generateSignedCloudFrontUrl`: strip a
single leading path separator if present. -/
def cleanFileKey (k : String) : String := String.mk (cleanList k.data)

/-- Resource URL built by the `/languages` route:
`${CLOUDFRONT_DOMAIN}/${file}` with the raw, unnormalized file parameter. -/
def languagesResourceUrl (domain file : String) : String :=
  domain ++ "/" ++ file

/-- Resource URL built by `generateSignedCloudFrontUrl` in the `/countries`
application: `${CLOUDFRONT_DOMAIN}/${cleanFileKey}`. -/
def countriesResourceUrl (domain fileKey : String) : String :=
  domain ++ "/" ++ cleanFileKey fileKey

/-- Argument record of the `getSignedUrl` CloudFront signing primitive. -/
structure SignRequest where
  url : String
  dateLessThan : Nat
  keyPairId : String
  privateKey : String
deriving DecidableEq

/-- Outcome of one call to the signing primitive: a signed URL, or a thrown
library error carrying a message. -/
inductive SignOutcome where
  | ok (signedUrl : String)
  | error (msg : String)
deriving DecidableEq

/-- Reply of a grant route: HTTP status, JSON body as key/value pairs, the
redirect target if any, and the signing request the handler issued (`none`
when no signing call was attempted). -/
structure RouteReply where
  status : Nat
  body : List (String × String)
  redirect : Option String
  signReq : Option SignRequest
deriving DecidableEq

/-- The 400 reply of the `/languages` route when the `file` query parameter
is falsy (absent or empty). -/
def missingFileLanguagesReply : RouteReply :=
  { status := 400
    body := [("error", "Missing file"),
             ("message", "Provide the ?file=filename.json query param to download a file.")]
    redirect := none
    signReq := none }

/-- The 400 reply of the `/countries` route when `file` is falsy; its body
has only an `error` field. -/
def missingFileCountriesReply : RouteReply :=
  { status := 400
    body := [("error", "Missing \x27file\x27 parameter")]
    redirect := none
    signReq := none }

/-- The `/languages` route handler.  `file` is the optional `?file=` query
parameter (`none` models an absent parameter; the empty string is falsy in
the JavaScript `if (!file)` check).  `sign` models `getSignedUrl`. -/
def languagesHandler (domain keyPairId privateKey : String) (file : Option String)
    (nowMs : Nat) (sign : SignRequest → SignOutcome) : RouteReply :=
  match file with
  | none => missingFileLanguagesReply
  | some f =>
    if f == "" then missingFileLanguagesReply
    else
      let req : SignRequest :=
        { url := languagesResourceUrl domain f
          dateLessThan := languagesExpiresAt nowMs
          keyPairId := keyPairId
          privateKey := privateKey }
      match sign req with
      | .ok u =>
        { status := 302, body := [], redirect := some u, signReq := some req }
      | .error m =>
        { status := 500
          body := [("error", "Signed URL generation failed"), ("message", m)]
          redirect := none
          signReq := some req }

/-- Result of `generateSignedCloudFrontUrl`: the signed URL, or the rethrown
wrapped error message. -/
inductive GenResult where
  | ok (url : String)
  | thrown (msg : String)
deriving DecidableEq

/-- The `generateSignedCloudFrontUrl` helper of the `/countries` application.
It always issues exactly one signing call; a signer error is caught and
rethrown as `"Failed to generate CloudFront signed URL."`.  The signing
request it made is returned alongside the result. -/
def generateSignedCloudFrontUrl (domain keyPairId privateKey fileKey : String)
    (nowMs : Nat) (sign : SignRequest → SignOutcome) : GenResult × SignRequest :=
  let req : SignRequest :=
    { url := countriesResourceUrl domain fileKey
      dateLessThan := countriesExpiresAt nowMs
      keyPairId := keyPairId
      privateKey := privateKey }
  match sign req with
  | .ok u => (.ok u, req)
  | .error _ => (.thrown "Failed to generate CloudFront signed URL.", req)

/-- The `/countries` route handler. -/
def countriesHandler (domain keyPairId privateKey : String) (file : Option String)
    (nowMs : Nat) (sign : SignRequest → SignOutcome) : RouteReply :=
  match file with
  | none => missingFileCountriesReply
  | some f =>
    if f == "" then missingFileCountriesReply
    else
      match generateSignedCloudFrontUrl domain keyPairId privateKey f nowMs sign with
      | (.ok u, req) =>
        { status := 302, body := [], redirect := some u, signReq := some req }
      | (.thrown m, req) =>
        { status := 500
          body := [("error", "Failed to retrieve file URL for " ++ f), ("message", m)]
          redirect := none
          signReq := some req }

/-- Does a JSON body (association list) carry the given key? -/
def bodyHasKey (body : List (String × String)) (k : String) : Bool :=
  body.any (fun p => p.1 == k)

/-- One entry of the country reference table loaded from S3. -/
structure CountryRecord where
  code : String
  name : String
  dial_code : String
  flag : String
deriving DecidableEq

/-- Payload of a successful HTTP response from the geolocation oracle
(`ip-api.com`): a status string and an optional country code. -/
structure GeoData where
  status : String
  countryCode : Option String
deriving DecidableEq

/-- Outcome of the outbound oracle call: a parsed payload, or a network
error (the `axios.get` call throwing) with its message. -/
inductive OracleOutcome where
  | ok (data : GeoData)
  | error (message : String)
deriving DecidableEq

/-- Outcome of the S3 fetch-and-parse performed by `loadCountryDataFromS3`
when it actually fetches: the parsed table, or any failure (caught by the
handler's `catch` block). -/
inductive FetchOutcome where
  | ok (data : List CountryRecord)
  | error
deriving DecidableEq

/-- The `loadCountryDataFromS3` function: if `countryData` is already
non-null it returns at once; otherwise it fetches, storing the parsed table
on success and the explicit empty table `[]` on failure.  The boolean
records whether a fetch was attempted. -/
def loadCountryDataFromS3 (countryData : Option (List CountryRecord))
    (fetch : FetchOutcome) : Option (List CountryRecord) × Bool :=
  match countryData with
  | some d => (some d, false)
  | none =>
    match fetch with
    | .ok d => (some d, true)
    | .error => (some [], true)

/-- Reply of the `/geolocation` route: HTTP status and JSON body. -/
structure GeoReply where
  status : Nat
  body : List (String × String)
deriving DecidableEq

/-- The default fallback reply `{dial_code: "+1", message: "Defaulting to
+1"}` with status 200. -/
def defaultGeoReply : GeoReply :=
  { status := 200, body := [("dial_code", "+1"), ("message", "Defaulting to +1")] }

/-- The 500 reply sent when `countryData` is still null after the reload
attempt. -/
def unavailableGeoReply : GeoReply :=
  { status := 500
    body := [("error", "Country data not available"),
             ("message", "Failed to load country data from S3.")] }

/-- Table lookup `countryData.find(country => country.code ===
detectedCountryCode)`. -/
def findCountry (countryData : List CountryRecord) (code : String) :
    Option CountryRecord :=
  countryData.find? (fun country => country.code == code)

/-- The oracle-dependent part of the `/geolocation` handler, run once the
table is available: on oracle success with a truthy country code, answer
with the matched record's fields, else with the default; an oracle network
error is caught and answered with a 500. -/
def geoLookupReply (countryData : List CountryRecord) (oracle : OracleOutcome) :
    GeoReply :=
  match oracle with
  | .error message =>
    { status := 500
      body := [("error", "Failed to detect country code"), ("message", message)] }
  | .ok geoData =>
    match geoData.countryCode with
    | some code =>
      if geoData.status == "success" && !(code == "") then
        match findCountry countryData code with
        | some countryInfo =>
          { status := 200
            body := [("dial_code", countryInfo.dial_code),
                     ("country_code", countryInfo.code),
                     ("country_name", countryInfo.name),
                     ("flag", countryInfo.flag)] }
        | none => defaultGeoReply
      else defaultGeoReply
    | none => defaultGeoReply

/-- Full observable outcome of one `/geolocation` request: the reply, the
`countryData` state after the request, and whether a fetch was attempted. -/
structure GeoStep where
  reply : GeoReply
  countryData : Option (List CountryRecord)
  loadAttempted : Bool
deriving DecidableEq

/-- The `/geolocation` route handler with explicit state passing: when
`countryData` is null it calls `loadCountryDataFromS3`, then re-checks the
`!countryData` guard (note `[]` is truthy in JavaScript, hence modelled as
`some []`), and finally runs the lookup against the oracle outcome. -/
def geolocationHandler (countryData : Option (List CountryRecord))
    (fetch : FetchOutcome) (oracle : OracleOutcome) : GeoStep :=
  let loaded : Option (List CountryRecord) × Bool :=
    match countryData with
    | none => loadCountryDataFromS3 none fetch
    | some d => (some d, false)
  match loaded with
  | (none, attempted) =>
    { reply := unavailableGeoReply, countryData := none, loadAttempted := attempted }
  | (some table, attempted) =>
    { reply := geoLookupReply table oracle
      countryData := some table
      loadAttempted := attempted }

/-- Caller address selection `request.headers["x-forwarded-for"] ||
request.ip`: an absent or empty (falsy) forwarded header falls back to the
transport-level peer address. -/
def clientIp (xForwardedFor : Option String) (ip : String) : String :=
  match xForwardedFor with
  | some s => if s == "" then ip else s
  | none => ip

/-- Final `countryData` state after a sequence of `/geolocation` requests,
each with its own fetch and oracle outcome. -/
def runGeoRequests (countryData : Option (List CountryRecord)) :
    List (FetchOutcome × OracleOutcome) → Option (List CountryRecord)
  | [] => countryData
  | (fetch, oracle) :: rest =>
    runGeoRequests ((geolocationHandler countryData fetch oracle).countryData) rest

/-- The reference record of the spec's scenario:
`{code: "FR", dial_code: "+33", name: "France", flag: "🇫🇷"}`. -/
def frRecord : CountryRecord :=
  { code := "FR", name := "France", dial_code := "+33", flag := "🇫🇷" }

end PortfolioBE

namespace PortfolioBE

lemma mk_data (s : String) : String.mk s.data = s := by
  cases s
  rfl

lemma cleanList_of_head_ne (l : List Char) (h : l.head? ≠ some '/') :
    cleanList l = l := by
  cases l with
  | nil => rfl
  | cons c rest =>
    have hc : c ≠ '/' := fun hcc => h (by simp [hcc])
    simp [cleanList, hc]

lemma cleanFileKey_slash_append (k : String) : cleanFileKey ("/" ++ k) = k := by
  apply String.ext
  show cleanList (("/" ++ k).data) = k.data
  rw [String.data_append]
  simp [cleanList]

lemma cleanFileKey_of_head_ne (k : String) (h : k.data.head? ≠ some '/') :
    cleanFileKey k = k := by
  apply String.ext
  show cleanList k.data = k.data
  exact cleanList_of_head_ne k.data h

lemma languagesHandler_signReq (domain keyPairId privateKey f : String) (nowMs : Nat)
    (sign : SignRequest → SignOutcome) (h : (f == "") = false) :
    (languagesHandler domain keyPairId privateKey (some f) nowMs sign).signReq =
      some { url := languagesResourceUrl domain f
             dateLessThan := languagesExpiresAt nowMs
             keyPairId := keyPairId
             privateKey := privateKey } := by
  cases hs : sign { url := languagesResourceUrl domain f
                    dateLessThan := languagesExpiresAt nowMs
                    keyPairId := keyPairId
                    privateKey := privateKey } <;>
    simp [languagesHandler, h, hs]

lemma countriesHandler_signReq (domain keyPairId privateKey f : String) (nowMs : Nat)
    (sign : SignRequest → SignOutcome) (h : (f == "") = false) :
    (countriesHandler domain keyPairId privateKey (some f) nowMs sign).signReq =
      some { url := countriesResourceUrl domain f
             dateLessThan := countriesExpiresAt nowMs
             keyPairId := keyPairId
             privateKey := privateKey } := by
  cases hs : sign { url := countriesResourceUrl domain f
                    dateLessThan := countriesExpiresAt nowMs
                    keyPairId := keyPairId
                    privateKey := privateKey } <;>
    simp [countriesHandler, generateSignedCloudFrontUrl, h, hs]

/-- C1 counterexample: at issuance time 0 the `/languages` grant endpoint
issues a signing request whose expiry is 600 (milliseconds), which is
neither issuance time plus the nominal 60-second TTL nor issuance time plus
ten times that TTL. -/
theorem languages_expiry_counterexample :
    (languagesHandler "cdn.example" "KP" "PK" (some "a.json") 0
        (fun _ => SignOutcome.ok "signed")).signReq.map SignRequest.dateLessThan
      = some 600 ∧
    (600 : Nat) ≠ 0 + EXPIRES_IN_SECONDS * 1000 ∧
    (600 : Nat) ≠ 0 + 10 * (EXPIRES_IN_SECONDS * 1000) := by decide

/-- C1 (amended): a `/countries` grant expires exactly
`EXPIRES_IN_SECONDS * 1000` milliseconds (60 s) after issuance, while a
`/languages` grant expires `EXPIRES_IN_SECONDS * 10` milliseconds (600 ms)
after issuance — one hundredth of the nominal constant, not ten times it,
because `Date.now()` counts milliseconds; in both variants the expiry is
strictly greater than the issuance time. -/
theorem grant_expiry_amended (domain keyPairId privateKey f : String) (nowMs : Nat)
    (sign : SignRequest → SignOutcome) (h : f ≠ "") :
    (languagesHandler domain keyPairId privateKey (some f) nowMs sign).signReq.map
        SignRequest.dateLessThan = some (nowMs + EXPIRES_IN_SECONDS * 10) ∧
    (countriesHandler domain keyPairId privateKey (some f) nowMs sign).signReq.map
        SignRequest.dateLessThan = some (nowMs + EXPIRES_IN_SECONDS * 1000) ∧
    nowMs < nowMs + EXPIRES_IN_SECONDS * 10 ∧
    nowMs < nowMs + EXPIRES_IN_SECONDS * 1000 ∧
    EXPIRES_IN_SECONDS * 1000 = 100 * (EXPIRES_IN_SECONDS * 10) := by
  have hb : (f == "") = false := beq_eq_false_iff_ne.mpr h
  refine ⟨?_, ?_, ?_, ?_, rfl⟩
  · rw [languagesHandler_signReq domain keyPairId privateKey f nowMs sign hb]
    rfl
  · rw [countriesHandler_signReq domain keyPairId privateKey f nowMs sign hb]
    rfl
  · simp [EXPIRES_IN_SECONDS]
  · simp [EXPIRES_IN_SECONDS]

/-- C1 witness: the amended expiry theorem instantiated at a concrete
request issued at time 0. -/
theorem grant_expiry_amended_witness :
    (languagesHandler "cdn.example" "KP" "PK" (some "a.json") 0
        (fun _ => SignOutcome.ok "signed")).signReq.map SignRequest.dateLessThan
      = some (0 + EXPIRES_IN_SECONDS * 10) ∧
    (countriesHandler "cdn.example" "KP" "PK" (some "a.json") 0
        (fun _ => SignOutcome.ok "signed")).signReq.map SignRequest.dateLessThan
      = some (0 + EXPIRES_IN_SECONDS * 1000) ∧
    (0 : Nat) < 0 + EXPIRES_IN_SECONDS * 10 ∧
    (0 : Nat) < 0 + EXPIRES_IN_SECONDS * 1000 ∧
    EXPIRES_IN_SECONDS * 1000 = 100 * (EXPIRES_IN_SECONDS * 10) :=
  grant_expiry_amended "cdn.example" "KP" "PK" "a.json" 0
    (fun _ => SignOutcome.ok "signed") (by decide)

/-- C2 counterexample: with the table loaded, an oracle network error makes
the `/geolocation` handler answer with status 500, not with the default
`+1` record. -/
theorem oracle_network_error_counterexample :
    (geolocationHandler (some [frRecord]) FetchOutcome.error
        (OracleOutcome.error "Network Error")).reply.status = 500 ∧
    (geolocationHandler (some [frRecord]) FetchOutcome.error
        (OracleOutcome.error "Network Error")).reply ≠ defaultGeoReply := by decide

/-- C2 (amended): whenever the outbound oracle call fails with a network
error and the table is loaded, the handler surfaces a 500 response with
error `"Failed to detect country code"` and the error's message; it does
not degrade to the `+1` default. -/
theorem oracle_network_error_amended (table : List CountryRecord)
    (fetch : FetchOutcome) (msg : String) :
    (geolocationHandler (some table) fetch (OracleOutcome.error msg)).reply =
      { status := 500
        body := [("error", "Failed to detect country code"), ("message", msg)] } :=
  rfl

/-- C3: behavior of the code at the claim's failing input — the table was
never loaded, the synchronous load attempt fails (writing the truthy `[]`
into `countryData`), and the handler proceeds to answer 200 with the
default `+1` record instead of the 500 `DataUnavailable` its own comment
promises. -/
theorem failed_load_default_behavior :
    geolocationHandler none FetchOutcome.error
        (OracleOutcome.ok { status := "success", countryCode := some "FR" }) =
      { reply := defaultGeoReply, countryData := some [], loadAttempted := true } := by
  decide

/-- C4 counterexample: the `/languages` route interpolates the raw key, so
the key `/a/b` produces a URL with a double slash and a different URL from
the key `a/b`. -/
theorem languages_url_counterexample :
    languagesResourceUrl "cdn.example" "/a/b" = "cdn.example//a/b" ∧
    languagesResourceUrl "cdn.example" "/a/b" ≠
      languagesResourceUrl "cdn.example" "a/b" := by decide

/-- C4 (amended): the `/countries` variant strips a single leading path
separator, so `/a/b` and `a/b` yield the same resource URL there; the
`/languages` variant performs no normalization, so a leading separator
yields a distinct (double-slashed) URL. -/
theorem key_normalization_amended (d k : String) :
    cleanFileKey ("/" ++ k) = k ∧
    (k.data.head? ≠ some '/' →
      countriesResourceUrl d ("/" ++ k) = countriesResourceUrl d k) ∧
    languagesResourceUrl d ("/" ++ k) ≠ languagesResourceUrl d k := by
  refine ⟨cleanFileKey_slash_append k, ?_, ?_⟩
  · intro hk
    unfold countriesResourceUrl
    rw [cleanFileKey_slash_append k, cleanFileKey_of_head_ne k hk]
  · intro h
    have hd := congrArg String.data h
    simp [languagesResourceUrl, String.data_append] at hd

/-- C4 witness: the amended normalization theorem at the spec's own
example pair `/a/b` and `a/b`. -/
theorem key_normalization_amended_witness :
    cleanFileKey ("/" ++ "a/b") = "a/b" ∧
    countriesResourceUrl "cdn.example" ("/" ++ "a/b") =
      countriesResourceUrl "cdn.example" "a/b" ∧
    languagesResourceUrl "cdn.example" ("/" ++ "a/b") ≠
      languagesResourceUrl "cdn.example" "a/b" :=
  ⟨(key_normalization_amended "cdn.example" "a/b").1,
   (key_normalization_amended "cdn.example" "a/b").2.1 (by decide),
   (key_normalization_amended "cdn.example" "a/b").2.2⟩

end PortfolioBE

namespace PortfolioBE

/-- C5 counterexample: in the spec's own scenario the success response body
is not literally the table record (its keys are `dial_code`,
`country_code`, `country_name`, `flag`, not the record's `code`,
`dial_code`, `name`, `flag`), and the fallback body is not exactly
`{dial_code: "+1"}` (it carries an extra `message` field). -/
theorem resolver_response_counterexample :
    (geolocationHandler (some [frRecord]) FetchOutcome.error
        (OracleOutcome.ok { status := "success", countryCode := some "FR" })).reply.body ≠
      [("code", "FR"), ("dial_code", "+33"), ("name", "France"), ("flag", "🇫🇷")] ∧
    (geolocationHandler (some [frRecord]) FetchOutcome.error
        (OracleOutcome.ok { status := "fail", countryCode := none })).reply.body ≠
      [("dial_code", "+1")] := by decide

/-- C5 (amended): with the table loaded, an oracle success whose country
code matches a table entry is answered 200 with that entry's four values
under the keys `dial_code`, `country_code`, `country_name`, `flag`; a
non-success oracle status, or a code absent from the table, is answered
with the default `{dial_code: "+1", message: "Defaulting to +1"}`. -/
theorem resolver_response_amended (table : List CountryRecord) (fetch : FetchOutcome)
    (geo : GeoData) (code : String) (r : CountryRecord) :
    (geo.countryCode = some code → code ≠ "" → geo.status = "success" →
      findCountry table code = some r →
      (geolocationHandler (some table) fetch (OracleOutcome.ok geo)).reply =
        { status := 200
          body := [("dial_code", r.dial_code), ("country_code", r.code),
                   ("country_name", r.name), ("flag", r.flag)] }) ∧
    (geo.status ≠ "success" →
      (geolocationHandler (some table) fetch (OracleOutcome.ok geo)).reply =
        defaultGeoReply) ∧
    (geo.countryCode = some code → findCountry table code = none →
      (geolocationHandler (some table) fetch (OracleOutcome.ok geo)).reply =
        defaultGeoReply) := by
  obtain ⟨st, cc⟩ := geo
  refine ⟨?_, ?_, ?_⟩
  · intro hcc hcode hst hfind
    simp only at hcc hst
    subst hcc
    subst hst
    show geoLookupReply table
        (OracleOutcome.ok { status := "success", countryCode := some code }) = _
    simp [geoLookupReply, hcode, hfind]
  · intro hst
    simp only at hst
    show geoLookupReply table (OracleOutcome.ok { status := st, countryCode := cc }) =
      defaultGeoReply
    cases cc with
    | none => rfl
    | some c =>
      have hb : (st == "success") = false := beq_eq_false_iff_ne.mpr hst
      simp [geoLookupReply, hb]
  · intro hcc hfind
    simp only at hcc
    subst hcc
    show geoLookupReply table (OracleOutcome.ok { status := st, countryCode := some code }) =
      defaultGeoReply
    by_cases hs : ((st == "success") && !(code == "")) = true
    · simp [geoLookupReply, hs, hfind]
    · simp only [Bool.not_eq_true] at hs
      simp [geoLookupReply, hs]

/-- C5 witness: the amended resolver theorem at the spec's scenario — the
table `[{code:"FR", dial_code:"+33", name:"France", flag:"🇫🇷"}]` with an
oracle success for `FR`, and the same table with an oracle `fail`. -/
theorem resolver_response_amended_witness :
    (geolocationHandler (some [frRecord]) FetchOutcome.error
        (OracleOutcome.ok { status := "success", countryCode := some "FR" })).reply =
      { status := 200
        body := [("dial_code", "+33"), ("country_code", "FR"),
                 ("country_name", "France"), ("flag", "🇫🇷")] } ∧
    (geolocationHandler (some [frRecord]) FetchOutcome.error
        (OracleOutcome.ok { status := "fail", countryCode := none })).reply =
      defaultGeoReply :=
  ⟨(resolver_response_amended [frRecord] FetchOutcome.error
      { status := "success", countryCode := some "FR" } "FR" frRecord).1
      rfl (by decide) rfl (by decide),
   (resolver_response_amended [frRecord] FetchOutcome.error
      { status := "fail", countryCode := none } "FR" frRecord).2.1 (by decide)⟩

/-- C6 counterexample: the `/countries` route's missing-parameter reply has
status 400 but its body carries no `message` field, only `error`. -/
theorem countries_missing_message_counterexample :
    (countriesHandler "cdn.example" "KP" "PK" none 0
        (fun _ => SignOutcome.ok "signed")).status = 400 ∧
    bodyHasKey (countriesHandler "cdn.example" "KP" "PK" none 0
        (fun _ => SignOutcome.ok "signed")).body "message" = false := by decide

/-- C6 (amended): a request without the `file` query parameter gets a 400
reply with an `error` field and no signing call on both grant endpoints;
the `/languages` body also carries a `message` field, while the
`/countries` body carries only the `error` field. -/
theorem missing_file_amended (domain keyPairId privateKey : String) (nowMs : Nat)
    (sign : SignRequest → SignOutcome) :
    (languagesHandler domain keyPairId privateKey none nowMs sign).status = 400 ∧
    bodyHasKey (languagesHandler domain keyPairId privateKey none nowMs sign).body
      "error" = true ∧
    bodyHasKey (languagesHandler domain keyPairId privateKey none nowMs sign).body
      "message" = true ∧
    (languagesHandler domain keyPairId privateKey none nowMs sign).signReq = none ∧
    (countriesHandler domain keyPairId privateKey none nowMs sign).status = 400 ∧
    bodyHasKey (countriesHandler domain keyPairId privateKey none nowMs sign).body
      "error" = true ∧
    bodyHasKey (countriesHandler domain keyPairId privateKey none nowMs sign).body
      "message" = false ∧
    (countriesHandler domain keyPairId privateKey none nowMs sign).signReq = none :=
  ⟨rfl, rfl, rfl, rfl, rfl, rfl, rfl, rfl⟩

/-- C7 counterexample: a forwarded-address header that is present but empty
is falsy under `||`, so the peer address is used instead of the header. -/
theorem forwarded_header_counterexample :
    clientIp (some "") "203.0.113.7" ≠ "" ∧
    clientIp (some "") "203.0.113.7" = "203.0.113.7" := by decide

/-- C7 (amended): the oracle is queried with the forwarded-address header
when it is present and non-empty; when the header is absent or empty the
transport-level peer address is used. -/
theorem clientIp_amended (s ip : String) :
    (s ≠ "" → clientIp (some s) ip = s) ∧
    clientIp none ip = ip ∧
    clientIp (some "") ip = ip := by
  refine ⟨?_, rfl, rfl⟩
  intro h
  have hb : (s == "") = false := beq_eq_false_iff_ne.mpr h
  simp [clientIp, hb]

/-- C7 witness: the amended address-selection theorem at concrete
addresses. -/
theorem clientIp_amended_witness :
    clientIp (some "198.51.100.9") "203.0.113.7" = "198.51.100.9" ∧
    clientIp none "203.0.113.7" = "203.0.113.7" ∧
    clientIp (some "") "203.0.113.7" = "203.0.113.7" :=
  ⟨(clientIp_amended "198.51.100.9" "203.0.113.7").1 (by decide),
   (clientIp_amended "198.51.100.9" "203.0.113.7").2.1,
   (clientIp_amended "198.51.100.9" "203.0.113.7").2.2⟩

/-- C8: a lookup with a loaded table leaves the table unchanged, and a
second `/geolocation` request observing the state left by a first request
with the same fetch and oracle outcomes produces the same reply and the
same table state. -/
theorem resolver_idempotent (s : Option (List CountryRecord)) (t : List CountryRecord)
    (fetch : FetchOutcome) (oracle : OracleOutcome) :
    (geolocationHandler (some t) fetch oracle).countryData = some t ∧
    (geolocationHandler ((geolocationHandler s fetch oracle).countryData) fetch
        oracle).reply = (geolocationHandler s fetch oracle).reply ∧
    (geolocationHandler ((geolocationHandler s fetch oracle).countryData) fetch
        oracle).countryData = (geolocationHandler s fetch oracle).countryData := by
  refine ⟨rfl, ?_, ?_⟩ <;>
  · cases s with
    | some d => rfl
    | none => cases fetch <;> rfl

/-- C9: a load attempt that fails writes the explicit empty table (`some
[]`), and after any call to `loadCountryDataFromS3` the table is defined
(never `none`). -/
theorem failed_load_sets_empty_table (s : Option (List CountryRecord))
    (fetch : FetchOutcome) :
    loadCountryDataFromS3 none FetchOutcome.error = (some [], true) ∧
    (loadCountryDataFromS3 s fetch).1.isSome = true := by
  refine ⟨rfl, ?_⟩
  cases s with
  | some d => rfl
  | none => cases fetch <;> rfl

lemma runGeoRequests_some (t : List CountryRecord)
    (reqs : List (FetchOutcome × OracleOutcome)) :
    runGeoRequests (some t) reqs = some t := by
  induction reqs with
  | nil => rfl
  | cons p rest ih =>
    obtain ⟨fetch, oracle⟩ := p
    exact ih

/-- C10: once `countryData` holds any non-null value — the empty table
after a failed load included — `loadCountryDataFromS3` returns it untouched
without fetching, a `/geolocation` request attempts no load and leaves the
table unchanged, and the table stays fixed across any sequence of further
requests. -/
theorem table_written_at_most_once (t : List CountryRecord) (fetch : FetchOutcome)
    (oracle : OracleOutcome) (reqs : List (FetchOutcome × OracleOutcome)) :
    loadCountryDataFromS3 (some t) fetch = (some t, false) ∧
    (geolocationHandler (some t) fetch oracle).loadAttempted = false ∧
    (geolocationHandler (some t) fetch oracle).countryData = some t ∧
    runGeoRequests (some t) reqs = some t :=
  ⟨rfl, rfl, rfl, runGeoRequests_some t reqs⟩

end PortfolioBE
